import Mathlib

/-!
Verification development for the KTX v1 texture-loader factory
(`IGLU/texture_loader/ktx1/TextureLoaderFactory.cpp`).

The single source file is shallowly embedded below.  Collaborator types that
live outside the source file (the `Header` record layout, `DataReader`, the
format-properties resolver, `TextureRangeDesc` and the safe-copy helper) are
modelled from the specification; every such definition carries a doc comment
starting with `Modelled from the spec:`.  Machine integers are `Nat` with an
explicit `% 2 ^ 32` wherever the C++ performs `uint32_t` arithmetic.
-/

namespace Ktx1

/-- The modulus of `uint32_t` arithmetic, 2 to the power 32. -/
def u32Mod : Nat := 4294967296

/-- Modelled from the spec: the byte-range reader collaborator (`DataReader`,
not under src/).  `data` is the byte store (reads reduce modulo 256), `length`
is the reported buffer length, `nonNull` models whether the underlying pointer
is non-null. -/
structure DataReader where
  data : Nat → Nat
  length : Nat
  nonNull : Bool

/-- Byte at index `i` of the reader's buffer. -/
def byteAt (r : DataReader) (i : Nat) : Nat := r.data i % 256

/-- Modelled from the spec: little-endian 32-bit read at byte offset `off`
(`DataReader::readAt<uint32_t>`). -/
def readU32 (r : DataReader) (off : Nat) : Nat :=
  byteAt r off + 256 * byteAt r (off + 1) + 65536 * byteAt r (off + 2) +
    16777216 * byteAt r (off + 3)

/-- Fixed KTX1 header length in bytes (12-byte tag + 13 32-bit words). -/
def kHeaderLength : Nat := 64

/-- The fixed 12-byte KTX1 magic sequence. -/
def kMagic : List Nat :=
  [0xAB, 0x4B, 0x54, 0x58, 0x20, 0x31, 0x31, 0xBB, 0x0D, 0x0A, 0x1A, 0x0A]

/-- Modelled from the spec: the fixed-layout KTX1 header record (`Header.h`
is not under src/; field offsets follow the binary layout table of the spec). -/
structure Header where
  identifier : List Nat
  endianness : Nat
  glType : Nat
  glTypeSize : Nat
  glFormat : Nat
  glInternalFormat : Nat
  glBaseInternalFormat : Nat
  pixelWidth : Nat
  pixelHeight : Nat
  pixelDepth : Nat
  numberOfArrayElements : Nat
  numberOfFaces : Nat
  numberOfMipmapLevels : Nat
  bytesOfKeyValueData : Nat
  deriving DecidableEq

/-- Modelled from the spec: in-place interpretation of the first
`kHeaderLength` bytes as the header record. -/
def parseHeader (r : DataReader) : Header where
  identifier := (List.range 12).map (byteAt r)
  endianness := readU32 r 12
  glType := readU32 r 16
  glTypeSize := readU32 r 20
  glFormat := readU32 r 24
  glInternalFormat := readU32 r 28
  glBaseInternalFormat := readU32 r 32
  pixelWidth := readU32 r 36
  pixelHeight := readU32 r 40
  pixelDepth := readU32 r 44
  numberOfArrayElements := readU32 r 48
  numberOfFaces := readU32 r 52
  numberOfMipmapLevels := readU32 r 56
  bytesOfKeyValueData := readU32 r 60

/-- Modelled from the spec: `Header::tagIsValid`, byte-exact comparison of the
identifier against the 12-byte magic. -/
def tagIsValid (h : Header) : Bool := h.identifier = kMagic

/-- Pixel formats the model resolves.  `Invalid` is the rejection sentinel. -/
inductive TextureFormat where
  | Invalid
  | RGBA_UNorm8
  deriving DecidableEq

/-- Format properties: resolved pixel format plus the data needed by the
byte-size-for-range function. -/
structure FormatProperties where
  format : TextureFormat
  bytesPerPixel : Nat
  deriving DecidableEq

/-- Modelled from the spec: `Header::formatProperties`, the external
format-resolver lookup.  The model recognizes one uncompressed format
(`glInternalFormat = 0x8058`, 4-byte RGBA8); everything else resolves to the
`Invalid` sentinel. -/
def formatProperties (h : Header) : FormatProperties :=
  if h.glInternalFormat = 0x8058 then ⟨TextureFormat.RGBA_UNorm8, 4⟩
  else ⟨TextureFormat.Invalid, 0⟩

/-- Modelled from the spec: the normalized range descriptor collaborator
(`igl::TextureRangeDesc`, not under src/). -/
structure TextureRangeDesc where
  numMipLevels : Nat
  numLayers : Nat
  numFaces : Nat
  width : Nat
  height : Nat
  depth : Nat
  deriving DecidableEq

/-- Modelled from the spec: `TextureRangeDesc::atMipLevel`, the range of a
single mip level with standard halving per level, minimum 1 per axis. -/
def atMipLevel (r : TextureRangeDesc) (l : Nat) : TextureRangeDesc :=
  { r with
    numMipLevels := 1
    width := max (r.width / 2 ^ l) 1
    height := max (r.height / 2 ^ l) 1
    depth := max (r.depth / 2 ^ l) 1 }

/-- Modelled from the spec: `TextureRangeDesc::atFace`, the range restricted
to a single face. -/
def atFace (r : TextureRangeDesc) (_face : Nat) : TextureRangeDesc :=
  { r with numFaces := 1 }

/-- Byte size of mip level `l` of range `r` (layers × faces × bytes-per-pixel
× halved dimensions). -/
def bytesPerLevel (p : FormatProperties) (r : TextureRangeDesc) (l : Nat) : Nat :=
  r.numLayers * r.numFaces * p.bytesPerPixel * max (r.width / 2 ^ l) 1 *
    max (r.height / 2 ^ l) 1 * max (r.depth / 2 ^ l) 1

/-- Modelled from the spec: the format-properties byte-size-for-range function
(`TextureFormatProperties::getBytesPerRange`): total bytes over all mip levels
of the range. -/
def getBytesPerRange (p : FormatProperties) (r : TextureRangeDesc) : Nat :=
  ((List.range r.numMipLevels).map (bytesPerLevel p r)).sum

/-- Modelled from the spec: `TextureRangeDesc::validate`, the range
self-validation: no zero-after-clamp dimensions or counts. -/
def validateOk (r : TextureRangeDesc) : Bool :=
  0 < r.numMipLevels && 0 < r.numLayers && 0 < r.numFaces &&
    0 < r.width && 0 < r.height && 0 < r.depth

/-- Result codes of `igl::Result` used by this unit. -/
inductive Code where
  | Ok
  | ArgumentInvalid
  | ArgumentOutOfRange
  | InvalidOperation
  deriving DecidableEq

/-- An `igl::Result`: code plus message. -/
structure IglResult where
  code : Code
  message : String
  deriving DecidableEq

/-- Texture shapes assigned by the loader constructor. -/
inductive TextureType where
  | TwoD
  | TwoDArray
  | ThreeD
  | Cube
  deriving DecidableEq

/-- A recorded mip-level span: byte offset into the source buffer (modelling
the pointer `reader.at(offset)`) and byte length. -/
structure MipLevelData where
  offset : Nat
  length : Nat
  deriving DecidableEq

/-- The constructed loader: descriptor fields set by the `TextureLoader`
constructor, the span list, and the mip-generation flag. -/
structure TextureLoader where
  format : TextureFormat
  numMipLevels : Nat
  numLayers : Nat
  width : Nat
  height : Nat
  depth : Nat
  ttype : TextureType
  mipLevelData : List MipLevelData
  shouldGenerateMipmaps : Bool
  deriving DecidableEq

/-- The `TextureLoader` constructor (source lines 45-69): copies the range
into the descriptor, chooses the texture type, and sets the mip-generation
flag to `range.numMipLevels == 0`. -/
def makeTextureLoader (range : TextureRangeDesc) (format : TextureFormat)
    (mipLevelData : List MipLevelData) : TextureLoader where
  format := format
  numMipLevels := range.numMipLevels
  numLayers := range.numLayers
  width := range.width
  height := range.height
  depth := range.depth
  ttype :=
    if range.numFaces = 6 then TextureType.Cube
    else if range.depth > 1 then TextureType.ThreeD
    else if range.numLayers > 1 then TextureType.TwoDArray
    else TextureType.TwoD
  mipLevelData := mipLevelData
  shouldGenerateMipmaps := range.numMipLevels == 0

/-- `TextureLoader::canUploadSourceData` (source line 71). -/
def canUploadSourceData (_l : TextureLoader) : Bool := true

/-- The header checks of `TextureLoaderFactory::canCreateInternal` performed
after the null and length checks (source lines 121-150). -/
def canCreateChecks (header : Header) : Except IglResult Unit :=
  if ¬ tagIsValid header then
    Except.error ⟨Code.InvalidOperation, "Incorrect identifier."⟩
  else if header.endianness ≠ 0x04030201 then
    Except.error ⟨Code.InvalidOperation, "Big endian not supported."⟩
  else if (formatProperties header).format = TextureFormat.Invalid then
    Except.error ⟨Code.InvalidOperation, "Unrecognized texture format."⟩
  else if header.numberOfFaces = 6 ∧ header.numberOfArrayElements > 1 then
    Except.error ⟨Code.InvalidOperation, "Texture cube arrays not supported."⟩
  else if header.numberOfArrayElements > 1 ∧ header.pixelDepth > 1 then
    Except.error ⟨Code.InvalidOperation, "3D texture arrays not supported."⟩
  else Except.ok ()

/-- `TextureLoaderFactory::canCreateInternal` (source lines 108-151).
Returning `Except.error res` models returning `false` with `outResult` set to
`res`; `Except.ok ()` models returning `true`. -/
def canCreateInternal (r : DataReader) : Except IglResult Unit :=
  if r.nonNull = false then
    Except.error ⟨Code.ArgumentInvalid, "Reader data is nullptr."⟩
  else if r.length < kHeaderLength then
    Except.error ⟨Code.ArgumentOutOfRange, "Not enough data for header."⟩
  else canCreateChecks (parseHeader r)

/-- The normalized range built by `tryCreateInternal` (source lines 185-191). -/
def rangeOf (h : Header) : TextureRangeDesc where
  numMipLevels := max h.numberOfMipmapLevels 1
  numLayers := max h.numberOfArrayElements 1
  numFaces := h.numberOfFaces
  width := max h.pixelWidth 1
  height := max h.pixelHeight 1
  depth := max h.pixelDepth 1

/-- The expected total buffer length computed in `uint32_t` arithmetic
(source lines 206-208): `kHeaderLength + bytesOfKeyValueData +
numberOfMipmapLevels * 4 + rangeBytes`, each operation reducing mod 2^32. -/
def expectedLengthU32 (h : Header) (rangeBytesU32 : Nat) : Nat :=
  (((kHeaderLength + h.bytesOfKeyValueData) % u32Mod +
      h.numberOfMipmapLevels * 4 % u32Mod) % u32Mod + rangeBytesU32) % u32Mod

/-- Computed single-face byte size for mip level `l`
(`properties.getBytesPerRange(range.atMipLevel(mipLevel).atFace(0))`,
source line 224). -/
def levelFaceBytes (p : FormatProperties) (range : TextureRangeDesc) (l : Nat) : Nat :=
  getBytesPerRange p (atFace (atMipLevel range l) 0)

/-- The byte size the walk actually uses for level `l`: `expectedCubeBytes`
for cube textures, `expectedBytes` otherwise (source lines 233-236). -/
def levelDataBytes (p : FormatProperties) (range : TextureRangeDesc)
    (isCube : Bool) (l : Nat) : Nat :=
  if isCube then levelFaceBytes p range l * 6 else levelFaceBytes p range l

/-- The per-level acceptance condition of the walk (negation of the rejection
test at source line 227): the stored 4-byte size equals the computed
single-face size, or — for cube textures — 6 times it. -/
def imageSizeOk (isCube : Bool) (imageSize expectedBytes : Nat) : Prop :=
  imageSize = expectedBytes ∨ (isCube = true ∧ imageSize = expectedBytes * 6)

instance (isCube : Bool) (a b : Nat) : Decidable (imageSizeOk isCube a b) := by
  unfold imageSizeOk; infer_instance

/-- The per-mip-level walk of `tryCreateInternal` (source lines 222-237):
at each level read the stored 4-byte size, compare it against the computed
size, then record a span and advance the `uint32_t` offset by 4 plus the
computed byte size. -/
def processLevels (r : DataReader) (p : FormatProperties) (range : TextureRangeDesc)
    (isCube : Bool) : Nat → Nat → Nat → Except IglResult (List MipLevelData)
  | _mipLevel, 0, _offset => Except.ok []
  | mipLevel, k + 1, offset =>
    let imageSize := readU32 r offset
    let expectedBytes := levelFaceBytes p range mipLevel
    let expectedCubeBytes := expectedBytes * 6
    if imageSize ≠ expectedBytes ∧ ¬ (isCube = true ∧ imageSize = expectedCubeBytes) then
      Except.error ⟨Code.InvalidOperation, "Unexpected image size."⟩
    else
      let sz := if isCube then expectedCubeBytes else expectedBytes
      let offset2 := (offset + 4) % u32Mod
      match processLevels r p range isCube (mipLevel + 1) k ((offset2 + sz % u32Mod) % u32Mod) with
      | Except.error e => Except.error e
      | Except.ok rest => Except.ok (⟨offset2, sz % u32Mod⟩ :: rest)

/-- `TextureLoaderFactory::tryCreateInternal` (source lines 153-240). -/
def tryCreateInternal (r : DataReader) : Except IglResult TextureLoader :=
  let header := parseHeader r
  let length := r.length
  if header.bytesOfKeyValueData > length then
    Except.error ⟨Code.InvalidOperation, "Length is too short."⟩
  else if header.numberOfFaces ≠ 1 ∧ header.numberOfFaces ≠ 6 then
    Except.error ⟨Code.InvalidOperation, "numberOfFaces must be 1 or 6."⟩
  else if header.numberOfFaces = 6 ∧ header.pixelDepth ≠ 0 then
    Except.error ⟨Code.InvalidOperation, "pixelDepth must be 0 for cube textures."⟩
  else if header.numberOfFaces = 6 ∧ header.pixelWidth ≠ header.pixelHeight then
    Except.error ⟨Code.InvalidOperation, "pixelWidth must match pixelHeight for cube textures."⟩
  else
    let properties := formatProperties header
    let range := rangeOf header
    if validateOk range = false then
      Except.error ⟨Code.InvalidOperation, "Invalid texture range."⟩
    else
      let rangeBytesAsSizeT := getBytesPerRange properties range
      if rangeBytesAsSizeT > length then
        Except.error ⟨Code.InvalidOperation, "Length is too short."⟩
      else
        let rangeBytes := rangeBytesAsSizeT % u32Mod
        let expectedLength := expectedLengthU32 header rangeBytes
        if length < expectedLength then
          Except.error ⟨Code.InvalidOperation, "Length shorter than expected length."⟩
        else
          let isCube := header.numberOfFaces == 6
          let startOffset := (kHeaderLength + header.bytesOfKeyValueData) % u32Mod
          match processLevels r properties range isCube 0 range.numMipLevels startOffset with
          | Except.error e => Except.error e
          | Except.ok mipLevelData =>
            Except.ok (makeTextureLoader range properties.format mipLevelData)

/-- Modelled from the spec: `checked_memcpy_offset` (from `igl/IGLSafeC.h`,
not under src/): copy `count` source bytes to destination offset `offset`
only if the write fits within the destination; otherwise leave the
destination untouched. -/
def checked_memcpy_offset (dst : List Nat) (offset : Nat) (src : Nat → Nat)
    (srcOffset count : Nat) : List Nat :=
  if offset + count ≤ dst.length then
    dst.take offset ++ (List.range count).map (fun j => src (srcOffset + j) % 256) ++
      dst.drop (offset + count)
  else dst

/-- The copy loop of `TextureLoader::loadToExternalMemoryInternal`
(source lines 95-99): sequential `checked_memcpy_offset` per span, the
`uint32_t` destination offset advancing by each span's length. -/
def copySpans (src : Nat → Nat) : List MipLevelData → Nat → List Nat → List Nat
  | [], _, dst => dst
  | m :: rest, offset, dst =>
    copySpans src rest ((offset + m.length) % u32Mod)
      (checked_memcpy_offset dst offset src m.offset m.length)

/-- `TextureLoader::loadToExternalMemoryInternal` (source lines 91-100):
runs the copy loop and never touches `outResult` (modelled by the constant
`none` second component). -/
def loadToExternalMemoryInternal (src : Nat → Nat) (l : TextureLoader)
    (dst : List Nat) : List Nat × Option IglResult :=
  (copySpans src l.mipLevelData 0 dst, none)

/-! ### Concrete buffers used as witnesses and counterexamples -/

/-- Byte store backed by a list (reads past the end give 0). -/
def bufOf (l : List Nat) : Nat → Nat := fun i => l.getD i 0

/-- Little-endian 4-byte encoding of a 32-bit value. -/
def u32bytes (n : Nat) : List Nat :=
  [n % 256, n / 256 % 256, n / 65536 % 256, n / 16777216 % 256]

/-- A KTX1 header byte list from field values. -/
def mkHeaderBytes (glType glTypeSize glFormat glInternalFormat glBase w h d
    layers faces mips kv : Nat) : List Nat :=
  kMagic ++ u32bytes 0x04030201 ++ u32bytes glType ++ u32bytes glTypeSize ++
    u32bytes glFormat ++ u32bytes glInternalFormat ++ u32bytes glBase ++
    u32bytes w ++ u32bytes h ++ u32bytes d ++ u32bytes layers ++
    u32bytes faces ++ u32bytes mips ++ u32bytes kv

/-- A 72-byte buffer: valid RGBA8 1×1 texture, faces=1, declared mip-level
count 0, key-value bytes 0, stored level size 4, then 4 data bytes. -/
def B1 : DataReader where
  data := bufOf (mkHeaderBytes 0 0 0 0x8058 0 1 1 0 0 1 0 0 ++ u32bytes 4 ++ [1, 2, 3, 4])
  length := 72
  nonNull := true

/-- A 68-byte buffer: same header as `B1` (declared mip-level count 0) but the
buffer ends right after the 4-byte level-size word — exactly the expected
length computed by the code. -/
def B2 : DataReader where
  data := bufOf (mkHeaderBytes 0 0 0 0x8058 0 1 1 0 0 1 0 0 ++ u32bytes 4)
  length := 68
  nonNull := true

/-- A 92-byte buffer: RGBA8 1×1 cube texture (faces=6, depth=0), 1 mip level,
whose stored level size is 4 — the single-face size, not 6×4. -/
def B3 : DataReader where
  data := bufOf (mkHeaderBytes 0 0 0 0x8058 0 1 1 0 0 6 1 0 ++ u32bytes 4 ++
    List.replicate 24 7)
  length := 92
  nonNull := true

/-- A 64-byte buffer: cube header (faces=6, depth=0) with non-square
dimensions 2×1. -/
def Bns : DataReader where
  data := bufOf (mkHeaderBytes 0 0 0 0x8058 0 2 1 0 0 6 1 0)
  length := 64
  nonNull := true

/-- A 72-byte buffer: valid RGBA8 1×1 texture, faces=1, 1 declared mip level,
stored level size 4, 4 data bytes. -/
def B4 : DataReader where
  data := bufOf (mkHeaderBytes 0 0 0 0x8058 0 1 1 0 0 1 1 0 ++ u32bytes 4 ++ [9, 9, 9, 9])
  length := 72
  nonNull := true

/-- Like `B4` but with the stored level size corrupted to 5. -/
def B4bad : DataReader where
  data := bufOf (mkHeaderBytes 0 0 0 0x8058 0 1 1 0 0 1 1 0 ++ u32bytes 5 ++ [9, 9, 9, 9])
  length := 72
  nonNull := true

/-- A 71-byte buffer: the `B4` image truncated by one byte. -/
def B7 : DataReader where
  data := bufOf (mkHeaderBytes 0 0 0 0x8058 0 1 1 0 0 1 1 0 ++ u32bytes 4 ++ [9, 9, 9])
  length := 71
  nonNull := true

/-- A header-only reader of reported length `2^32 - 1` whose
`bytesOfKeyValueData` field is `2^32 - 4`, so the true expected-length sum
overflows 32 bits. -/
def B10 : DataReader where
  data := bufOf (mkHeaderBytes 0 0 0 0x8058 0 1 1 0 0 1 1 0xFFFFFFFC)
  length := 4294967295
  nonNull := true

instance {ε α : Type} [DecidableEq ε] [DecidableEq α] : DecidableEq (Except ε α) := fun a b =>
  match a, b with
  | Except.ok x, Except.ok y =>
    if h : x = y then Decidable.isTrue (by rw [h])
    else Decidable.isFalse (fun hc => h (by cases hc; rfl))
  | Except.error x, Except.error y =>
    if h : x = y then Decidable.isTrue (by rw [h])
    else Decidable.isFalse (fun hc => h (by cases hc; rfl))
  | Except.ok _, Except.error _ => Decidable.isFalse (fun hc => by cases hc)
  | Except.error _, Except.ok _ => Decidable.isFalse (fun hc => by cases hc)

/-! ### Derived observations and reachability conditions -/

/-- Whether a factory outcome is a constructed loader. -/
def isOk : Except IglResult TextureLoader → Bool
  | Except.ok _ => true
  | Except.error _ => false

/-- The span list of a factory outcome (empty on failure). -/
def spansOf : Except IglResult TextureLoader → List MipLevelData
  | Except.ok l => l.mipLevelData
  | Except.error _ => []

/-- The mip-generation flag of a factory outcome (false on failure). -/
def shouldGenOf : Except IglResult TextureLoader → Bool
  | Except.ok l => l.shouldGenerateMipmaps
  | Except.error _ => false

/-- The format properties resolved by `tryCreateInternal`. -/
def propsOf (r : DataReader) : FormatProperties := formatProperties (parseHeader r)

/-- The normalized full range built by `tryCreateInternal`. -/
def fullRangeOf (r : DataReader) : TextureRangeDesc := rangeOf (parseHeader r)

/-- The cube flag of `tryCreateInternal`. -/
def isCubeOf (r : DataReader) : Bool := (parseHeader r).numberOfFaces == 6

/-- Total pixel-data byte count for the full range. -/
def rangeBytesOf (r : DataReader) : Nat := getBytesPerRange (propsOf r) (fullRangeOf r)

/-- The walk's initial `uint32_t` offset (source line 221). -/
def startOffsetOf (r : DataReader) : Nat :=
  (kHeaderLength + (parseHeader r).bytesOfKeyValueData) % u32Mod

/-- The `uint32_t` offset at which the walk reads the stored size of level
`mip + i`, starting the walk at level `mip` and offset `start`. -/
def walkOffset (p : FormatProperties) (range : TextureRangeDesc) (isCube : Bool) :
    Nat → Nat → Nat → Nat
  | _mip, start, 0 => start
  | mip, start, i + 1 =>
    walkOffset p range isCube (mip + 1)
      (((start + 4) % u32Mod + levelDataBytes p range isCube mip % u32Mod) % u32Mod) i

/-- The stored size of level `i` (as read by the walk of
`tryCreateInternal`) passes the size check. -/
def levelSizeOkAt (r : DataReader) (i : Nat) : Prop :=
  imageSizeOk (isCubeOf r)
    (readU32 r (walkOffset (propsOf r) (fullRangeOf r) (isCubeOf r) 0 (startOffsetOf r) i))
    (levelFaceBytes (propsOf r) (fullRangeOf r) i)

instance (r : DataReader) (i : Nat) : Decidable (levelSizeOkAt r i) := by
  unfold levelSizeOkAt; infer_instance

/-- The buffer passes the validation of `tryCreateInternal` up to (and
including) the range self-validation (source lines 159-197). -/
def reachesRangeCheck (r : DataReader) : Prop :=
  (parseHeader r).bytesOfKeyValueData ≤ r.length ∧
    ((parseHeader r).numberOfFaces = 1 ∨ (parseHeader r).numberOfFaces = 6) ∧
    ((parseHeader r).numberOfFaces ≠ 6 ∨ (parseHeader r).pixelDepth = 0) ∧
    ((parseHeader r).numberOfFaces ≠ 6 ∨
      (parseHeader r).pixelWidth = (parseHeader r).pixelHeight) ∧
    validateOk (rangeOf (parseHeader r)) = true

instance (r : DataReader) : Decidable (reachesRangeCheck r) := by
  unfold reachesRangeCheck; infer_instance

/-- The buffer passes all validation of `tryCreateInternal` before the
per-level walk (source lines 159-214). -/
def reachesWalk (r : DataReader) : Prop :=
  reachesRangeCheck r ∧ rangeBytesOf r ≤ r.length ∧
    expectedLengthU32 (parseHeader r) (rangeBytesOf r % u32Mod) ≤ r.length

instance (r : DataReader) : Decidable (reachesWalk r) := by
  unfold reachesWalk; infer_instance

/-! ### Spec-side reference definitions and further witness inputs -/

/-- Evaluate an ordered list of (failure-condition, result) checks, stopping
at the first failing check; success if none fails. -/
def firstFailure : List (Bool × IglResult) → Except IglResult Unit
  | [] => Except.ok ()
  | (b, res) :: rest => if b then Except.error res else firstFailure rest

/-- The recognition checks in the order the spec lists them (steps 1-7 of
the recognition contract), each paired with its result. -/
def specChecks (r : DataReader) : List (Bool × IglResult) :=
  [(r.nonNull == false, ⟨Code.ArgumentInvalid, "Reader data is nullptr."⟩),
   (decide (r.length < kHeaderLength), ⟨Code.ArgumentOutOfRange, "Not enough data for header."⟩),
   (! tagIsValid (parseHeader r), ⟨Code.InvalidOperation, "Incorrect identifier."⟩),
   (decide ((parseHeader r).endianness ≠ 0x04030201),
     ⟨Code.InvalidOperation, "Big endian not supported."⟩),
   (decide ((formatProperties (parseHeader r)).format = TextureFormat.Invalid),
     ⟨Code.InvalidOperation, "Unrecognized texture format."⟩),
   (decide ((parseHeader r).numberOfFaces = 6 ∧ (parseHeader r).numberOfArrayElements > 1),
     ⟨Code.InvalidOperation, "Texture cube arrays not supported."⟩),
   (decide ((parseHeader r).numberOfArrayElements > 1 ∧ (parseHeader r).pixelDepth > 1),
     ⟨Code.InvalidOperation, "3D texture arrays not supported."⟩)]

/-- Recognition as the spec words it: the ordered check list evaluated with
first-failure semantics. -/
def canCreateSpec (r : DataReader) : Except IglResult Unit := firstFailure (specChecks r)

/-- Sequential unchecked span copy: the reference semantics for the copy
loop when every copy fits in the destination. -/
def copySpansSpec (src : Nat → Nat) : List MipLevelData → Nat → List Nat → List Nat
  | [], _, dst => dst
  | m :: rest, offset, dst =>
    copySpansSpec src rest (offset + m.length)
      (dst.take offset ++ (List.range m.length).map (fun j => src (m.offset + j) % 256) ++
        dst.drop (offset + m.length))

/-- All spans fit sequentially in a destination of length `len` starting at
`offset`, without `uint32_t` offset wrap-around. -/
def spansFitFrom (len : Nat) : List MipLevelData → Nat → Prop
  | [], _ => True
  | m :: rest, offset =>
    offset + m.length ≤ len ∧ offset + m.length < u32Mod ∧
      spansFitFrom len rest (offset + m.length)

instance spansFitFromDec (len : Nat) :
    ∀ (spans : List MipLevelData) (offset : Nat), Decidable (spansFitFrom len spans offset)
  | [], _ => Decidable.isTrue trivial
  | m :: rest, offset => by
    have : Decidable (spansFitFrom len rest (offset + m.length)) :=
      spansFitFromDec len rest (offset + m.length)
    unfold spansFitFrom
    infer_instance

/-- The loader produced from `B1` (checked against `tryCreateInternal B1`
in the copy-loop counterexample). -/
def L1 : TextureLoader :=
  makeTextureLoader (fullRangeOf B1) TextureFormat.RGBA_UNorm8 [⟨68, 4⟩]

/-- A 6-byte source store for the copy-loop witness. -/
def W8src : Nat → Nat := bufOf [10, 20, 30, 40, 50, 60]

/-- A loader with two small spans for the copy-loop witness. -/
def W8loader : TextureLoader :=
  makeTextureLoader ⟨1, 1, 1, 1, 1, 1⟩ TextureFormat.RGBA_UNorm8 [⟨0, 2⟩, ⟨4, 1⟩]

/-- A non-null reader of reported length 10 (shorter than the header). -/
def Rshort : DataReader where
  data := bufOf []
  length := 10
  nonNull := true

/-- A valid reader whose byte 64 (just past the header) is 1. -/
def R9a : DataReader where
  data := bufOf (mkHeaderBytes 0 0 0 0x8058 0 1 1 0 0 1 1 0 ++ [1])
  length := 65
  nonNull := true

/-- Like `R9a` but with byte 64 equal to 2. -/
def R9b : DataReader where
  data := bufOf (mkHeaderBytes 0 0 0 0x8058 0 1 1 0 0 1 1 0 ++ [2])
  length := 65
  nonNull := true

/-! ### Lemmas about the per-level walk -/

lemma ballSuccIff (P : Nat → Prop) (k : Nat) :
    (∀ i < k + 1, P i) ↔ P 0 ∧ ∀ i < k, P (i + 1) := by
  constructor
  · intro h
    exact ⟨h 0 (Nat.succ_pos k), fun i hi => h (i + 1) (by omega)⟩
  · rintro ⟨h0, hs⟩ i hi
    cases i with
    | zero => exact h0
    | succ j => exact hs j (by omega)

lemma walkOffset_zero (p : FormatProperties) (range : TextureRangeDesc)
    (isCube : Bool) (mip start : Nat) :
    walkOffset p range isCube mip start 0 = start := rfl

lemma walkOffset_succ (p : FormatProperties) (range : TextureRangeDesc)
    (isCube : Bool) (mip start i : Nat) :
    walkOffset p range isCube mip start (i + 1) =
      walkOffset p range isCube (mip + 1)
        (((start + 4) % u32Mod + levelDataBytes p range isCube mip % u32Mod) % u32Mod) i := rfl

/-- Full characterization of the per-level walk: it succeeds exactly when
every level's stored size passes the size check, in which case the recorded
spans sit at the post-size-word offsets with the computed byte lengths; the
only failure it produces is "Unexpected image size". -/
lemma processLevels_eq (r : DataReader) (p : FormatProperties) (range : TextureRangeDesc)
    (isCube : Bool) (k : Nat) :
    ∀ mip start : Nat,
      processLevels r p range isCube mip k start =
        if ∀ i < k, imageSizeOk isCube (readU32 r (walkOffset p range isCube mip start i))
            (levelFaceBytes p range (mip + i)) then
          Except.ok ((List.range k).map fun i =>
            (⟨(walkOffset p range isCube mip start i + 4) % u32Mod,
              levelDataBytes p range isCube (mip + i) % u32Mod⟩ : MipLevelData))
        else Except.error ⟨Code.InvalidOperation, "Unexpected image size."⟩ := by
  induction k with
  | zero =>
    intro mip start
    simp [processLevels]
  | succ k ih =>
    intro mip start
    have hstep : processLevels r p range isCube mip (k + 1) start =
        if readU32 r start ≠ levelFaceBytes p range mip ∧
            ¬ (isCube = true ∧ readU32 r start = levelFaceBytes p range mip * 6) then
          Except.error ⟨Code.InvalidOperation, "Unexpected image size."⟩
        else
          match processLevels r p range isCube (mip + 1) k
              (((start + 4) % u32Mod + levelDataBytes p range isCube mip % u32Mod) % u32Mod) with
          | Except.error e => Except.error e
          | Except.ok rest =>
            Except.ok (⟨(start + 4) % u32Mod, levelDataBytes p range isCube mip % u32Mod⟩ :: rest) :=
      rfl
    have hidx : ∀ i : Nat, mip + 1 + i = mip + (i + 1) := fun i => by omega
    rw [hstep,
      ih (mip + 1) (((start + 4) % u32Mod + levelDataBytes p range isCube mip % u32Mod) % u32Mod)]
    simp only [hidx, ballSuccIff, walkOffset_succ, walkOffset_zero, Nat.add_zero]
    by_cases h0 : imageSizeOk isCube (readU32 r start) (levelFaceBytes p range mip)
    · have hC : ¬ (readU32 r start ≠ levelFaceBytes p range mip ∧
          ¬ (isCube = true ∧ readU32 r start = levelFaceBytes p range mip * 6)) := by
        unfold imageSizeOk at h0; tauto
      rw [if_neg hC]
      by_cases hk : ∀ i < k, imageSizeOk isCube
          (readU32 r (walkOffset p range isCube (mip + 1)
            (((start + 4) % u32Mod + levelDataBytes p range isCube mip % u32Mod) % u32Mod) i))
          (levelFaceBytes p range (mip + (i + 1)))
      · rw [if_pos hk, if_pos (And.intro h0 hk)]
        simp only [List.range_succ_eq_map, List.map_cons, List.map_map, Function.comp_def,
          walkOffset_zero, walkOffset_succ, Nat.add_zero, Nat.succ_eq_add_one]
      · rw [if_neg hk, if_neg (fun h => hk h.2)]
    · have hC : readU32 r start ≠ levelFaceBytes p range mip ∧
          ¬ (isCube = true ∧ readU32 r start = levelFaceBytes p range mip * 6) := by
        unfold imageSizeOk at h0; tauto
      rw [if_pos hC, if_neg (fun h => h0 h.1)]

/-- A buffer that passes all pre-walk validation is handed to the per-level
walk, and the loader is built from the walk's spans. -/
lemma tryCreate_of_reach (r : DataReader) (h : reachesWalk r) :
    tryCreateInternal r =
      match processLevels r (propsOf r) (fullRangeOf r) (isCubeOf r) 0
          (fullRangeOf r).numMipLevels (startOffsetOf r) with
      | Except.error e => Except.error e
      | Except.ok m => Except.ok (makeTextureLoader (fullRangeOf r) (propsOf r).format m) := by
  obtain ⟨⟨h1, h2, h3, h4, h5⟩, h6, h7⟩ := h
  unfold rangeBytesOf propsOf fullRangeOf at h6 h7
  simp only [tryCreateInternal, propsOf, fullRangeOf, isCubeOf, startOffsetOf]
  rw [if_neg (by omega), if_neg (by tauto), if_neg (by tauto), if_neg (by tauto),
    if_neg (by simp [h5]), if_neg (by omega), if_neg (by omega)]

/-- Under the pre-walk validation, construction either fails with
"Unexpected image size" (some level's stored size failing the check) or
succeeds with exactly the walk's spans. -/
lemma tryCreate_cases (r : DataReader) (hreach : reachesWalk r) :
    (tryCreateInternal r = Except.error ⟨Code.InvalidOperation, "Unexpected image size."⟩ ∧
      ¬ ∀ i < (fullRangeOf r).numMipLevels, levelSizeOkAt r i) ∨
    ((∀ i < (fullRangeOf r).numMipLevels, levelSizeOkAt r i) ∧
      tryCreateInternal r = Except.ok (makeTextureLoader (fullRangeOf r) (propsOf r).format
        ((List.range (fullRangeOf r).numMipLevels).map fun i =>
          (⟨(walkOffset (propsOf r) (fullRangeOf r) (isCubeOf r) 0 (startOffsetOf r) i + 4) %
              u32Mod,
            levelDataBytes (propsOf r) (fullRangeOf r) (isCubeOf r) i % u32Mod⟩ :
            MipLevelData)))) := by
  have ht := tryCreate_of_reach r hreach
  rw [processLevels_eq r (propsOf r) (fullRangeOf r) (isCubeOf r)
    (fullRangeOf r).numMipLevels 0 (startOffsetOf r)] at ht
  simp only [Nat.zero_add] at ht
  unfold levelSizeOkAt
  by_cases hall : ∀ i < (fullRangeOf r).numMipLevels, imageSizeOk (isCubeOf r)
      (readU32 r (walkOffset (propsOf r) (fullRangeOf r) (isCubeOf r) 0 (startOffsetOf r) i))
      (levelFaceBytes (propsOf r) (fullRangeOf r) i)
  · right
    rw [if_pos hall] at ht
    exact ⟨hall, ht⟩
  · left
    rw [if_neg hall] at ht
    exact ⟨ht, hall⟩

/-- The `uint32_t` expected-length computation equals the mathematical sum
reduced modulo 2^32. -/
lemma expectedLengthU32_eq_mod (h : Header) (rb : Nat) :
    expectedLengthU32 h (rb % u32Mod) =
      (kHeaderLength + h.bytesOfKeyValueData + h.numberOfMipmapLevels * 4 + rb) % u32Mod := by
  unfold expectedLengthU32
  conv_rhs => rw [Nat.add_mod,
    Nat.add_mod (kHeaderLength + h.bytesOfKeyValueData) (h.numberOfMipmapLevels * 4)]

/-- Reaching the range-bytes check with too little data fails with
"Length is too short". -/
lemma tryCreate_lenTooShort (r : DataReader) (h : reachesRangeCheck r)
    (hgt : rangeBytesOf r > r.length) :
    tryCreateInternal r = Except.error ⟨Code.InvalidOperation, "Length is too short."⟩ := by
  obtain ⟨h1, h2, h3, h4, h5⟩ := h
  unfold rangeBytesOf propsOf fullRangeOf at hgt
  simp only [tryCreateInternal]
  rw [if_neg (by omega), if_neg (by tauto), if_neg (by tauto), if_neg (by tauto),
    if_neg (by simp [h5]), if_pos hgt]

/-- Reaching the expected-length check with a buffer shorter than the
(`uint32_t`) expected length fails with "Length shorter than expected
length". -/
lemma tryCreate_lenShorter (r : DataReader) (h : reachesRangeCheck r)
    (hle : rangeBytesOf r ≤ r.length)
    (hlt : r.length < expectedLengthU32 (parseHeader r) (rangeBytesOf r % u32Mod)) :
    tryCreateInternal r =
      Except.error ⟨Code.InvalidOperation, "Length shorter than expected length."⟩ := by
  obtain ⟨h1, h2, h3, h4, h5⟩ := h
  unfold rangeBytesOf propsOf fullRangeOf at hle hlt
  simp only [tryCreateInternal]
  rw [if_neg (by omega), if_neg (by tauto), if_neg (by tauto), if_neg (by tauto),
    if_neg (by simp [h5]), if_neg (by omega), if_pos hlt]

/-- `checked_memcpy_offset` never changes the destination's length. -/
lemma checked_memcpy_offset_length (dst : List Nat) (offset : Nat) (src : Nat → Nat)
    (srcOffset count : Nat) :
    (checked_memcpy_offset dst offset src srcOffset count).length = dst.length := by
  unfold checked_memcpy_offset
  split
  · simp only [List.length_append, List.length_take, List.length_drop, List.length_map,
      List.length_range]
    omega
  · rfl

/-- The copy loop never changes the destination's length. -/
lemma copySpans_length (src : Nat → Nat) :
    ∀ (spans : List MipLevelData) (offset : Nat) (dst : List Nat),
      (copySpans src spans offset dst).length = dst.length
  | [], _, _ => rfl
  | m :: rest, offset, dst => by
    unfold copySpans
    rw [copySpans_length src rest _ _, checked_memcpy_offset_length]

/-- When every span fits sequentially, the checked copy loop agrees with the
unchecked sequential copy. -/
lemma copySpans_eq_spec (src : Nat → Nat) :
    ∀ (spans : List MipLevelData) (offset : Nat) (dst : List Nat),
      spansFitFrom dst.length spans offset →
      copySpans src spans offset dst = copySpansSpec src spans offset dst
  | [], _, _, _ => rfl
  | m :: rest, offset, dst, hfit => by
    obtain ⟨hle, hlt, hrest⟩ := hfit
    unfold copySpans copySpansSpec
    rw [Nat.mod_eq_of_lt hlt]
    have hw : checked_memcpy_offset dst offset src m.offset m.length =
        dst.take offset ++ (List.range m.length).map (fun j => src (m.offset + j) % 256) ++
          dst.drop (offset + m.length) := by
      unfold checked_memcpy_offset
      rw [if_pos hle]
    rw [hw]
    exact copySpans_eq_spec src rest (offset + m.length) _
      (by rw [← hw, checked_memcpy_offset_length]; exact hrest)

/-! ### Claim theorems -/

/-- C1: the claim says the Loader's mip-generation flag equals (declared
mip-level count was 0) and `shouldGenerateMipmaps()` is true exactly when the
header field is 0.  The code instead computes the flag from the range whose
`numMipLevels` was already clamped to at least 1, so the flag is always
false.  This theorem evaluates the code at the failing input `B1` (a valid
buffer whose declared mip-level count is 0, accepted with a 1-entry span
list but flag false) and proves the flag is false for every buffer. -/
theorem C1_mipGenerationFlagAlwaysFalse :
    canCreateInternal B1 = Except.ok () ∧
    (parseHeader B1).numberOfMipmapLevels = 0 ∧
    isOk (tryCreateInternal B1) = true ∧
    (spansOf (tryCreateInternal B1)).length = 1 ∧
    shouldGenOf (tryCreateInternal B1) = false ∧
    ∀ r : DataReader, shouldGenOf (tryCreateInternal r) = false := by
  refine ⟨by decide, by decide, by decide, by decide, by decide, ?_⟩
  intro r
  have key : ∀ l, tryCreateInternal r = Except.ok l → l.shouldGenerateMipmaps = false := by
    intro l hl
    simp only [tryCreateInternal] at hl
    split at hl
    case _ => exact absurd hl (by simp)
    split at hl
    case _ => exact absurd hl (by simp)
    split at hl
    case _ => exact absurd hl (by simp)
    split at hl
    case _ => exact absurd hl (by simp)
    split at hl
    case _ => exact absurd hl (by simp)
    split at hl
    case _ => exact absurd hl (by simp)
    split at hl
    case _ => exact absurd hl (by simp)
    split at hl
    case _ => exact absurd hl (by simp)
    simp only [Except.ok.injEq] at hl
    subst hl
    simp [makeTextureLoader, rangeOf, Nat.max_eq_zero_iff]
  unfold shouldGenOf
  cases htc : tryCreateInternal r with
  | error e => rfl
  | ok l => exact key l htc

/-- C2: the claim says every recorded span lies entirely within the source
buffer, including when the declared mip-level count is 0.  The code's
expected-length check budgets `numberOfMipmapLevels * 4` bytes for the
per-level size words, which is 0 bytes when the declared count is 0 even
though the walk still reads one size word; buffer `B2` (68 bytes, declared
count 0) is accepted by both recognition and construction, yet its single
recorded span covers bytes [68, 72), entirely outside the 68-byte buffer. -/
theorem C2_spanBoundsViolatedForZeroMipCount :
    canCreateInternal B2 = Except.ok () ∧
    (parseHeader B2).numberOfMipmapLevels = 0 ∧
    isOk (tryCreateInternal B2) = true ∧
    spansOf (tryCreateInternal B2) = [⟨68, 4⟩] ∧
    B2.length = 68 ∧
    ¬ ((68 : Nat) < B2.length) ∧
    ¬ ((68 : Nat) + 4 ≤ B2.length) := by
  refine ⟨by decide, by decide, by decide, by decide, by decide, by decide, by decide⟩

/-- C3 counterexample: buffer `B3` is a cube texture (faces = 6) whose single
mip level stores the 1× single-face size (4 bytes, not 6 × 4) — and
construction accepts it, contradicting the claim that a prefix equal to
exactly 1× the single-face size is rejected. -/
theorem C3_counterexample_singleFaceSizeAccepted :
    (parseHeader B3).numberOfFaces = 6 ∧
    readU32 B3 64 = levelFaceBytes (propsOf B3) (fullRangeOf B3) 0 ∧
    readU32 B3 64 ≠ levelFaceBytes (propsOf B3) (fullRangeOf B3) 0 * 6 ∧
    isOk (tryCreateInternal B3) = true := by
  refine ⟨by decide, by decide, by decide, by decide⟩

/-- C3 amended: for cube textures a stored per-level size equal to 6× the
single-face computed size is accepted, a stored size equal to exactly 1× the
single-face size is ALSO accepted (the size check passes on either value),
and non-square width/height always makes construction fail. -/
theorem C3_cubeSizeAcceptanceAndSquareCheck (r : DataReader)
    (h6 : (parseHeader r).numberOfFaces = 6)
    (hwh : (parseHeader r).pixelWidth ≠ (parseHeader r).pixelHeight) :
    (¬ ∃ l, tryCreateInternal r = Except.ok l) ∧
    (∀ e : Nat, imageSizeOk true (e * 6) e) ∧
    (∀ e : Nat, imageSizeOk true e e) := by
  refine ⟨?_, fun e => Or.inr ⟨rfl, rfl⟩, fun e => Or.inl rfl⟩
  rintro ⟨l, hl⟩
  simp only [tryCreateInternal] at hl
  split at hl
  case _ => exact absurd hl (by simp)
  split at hl
  case _ => exact absurd hl (by simp)
  split at hl
  case _ => exact absurd hl (by simp)
  split at hl
  case _ => exact absurd hl (by simp)
  case _ h => exact h ⟨h6, hwh⟩

/-- C3 witness: the non-square cube buffer `Bns` is rejected. -/
theorem C3_witness_nonSquareRejected :
    ¬ ∃ l, tryCreateInternal Bns = Except.ok l :=
  (C3_cubeSizeAcceptanceAndSquareCheck Bns (by decide) (by decide)).1

/-- C4: during the per-level walk, construction succeeds exactly when every
level's stored 4-byte size passes the size check (equal to the computed
single-face size, or — for cube textures — also 6× it), and any failure the
code reports once the walk is reached is exactly "Unexpected image size",
regardless of other levels being well-formed. -/
theorem C4_storedSizeMustMatchComputed (r : DataReader) (hreach : reachesWalk r) :
    (isOk (tryCreateInternal r) = true ↔
      ∀ i < (fullRangeOf r).numMipLevels, levelSizeOkAt r i) ∧
    ∀ res, tryCreateInternal r = Except.error res →
      res = ⟨Code.InvalidOperation, "Unexpected image size."⟩ := by
  rcases tryCreate_cases r hreach with ⟨ht, hbad⟩ | ⟨hall, ht⟩
  · constructor
    · rw [ht]
      exact iff_of_false (by simp [isOk]) hbad
    · intro res hres
      rw [ht] at hres
      injection hres with h
      exact h.symm
  · constructor
    · rw [ht]
      exact iff_of_true rfl hall
    · intro res hres
      rw [ht] at hres
      exact absurd hres (by simp)

/-- C4 witness: the well-formed 1-level buffer `B4` (stored size 4 = computed
size) is accepted, via the acceptance direction of the theorem. -/
theorem C4_witness_wellFormedAccepted : isOk (tryCreateInternal B4) = true :=
  (C4_storedSizeMustMatchComputed B4 (by decide)).1.mpr (by decide)

/-- C5 counterexample: on cube buffer `B3` the stored level size is 4, but
the recorded span has length 24 (= 6 × the single-face size, the computed
value) — not the stored size — and the next offset advances by 4 + 24, so
the claim that the span records the stored length is false. -/
theorem C5_counterexample_spanUsesComputedLength :
    readU32 B3 64 = 4 ∧
    isOk (tryCreateInternal B3) = true ∧
    spansOf (tryCreateInternal B3) = [⟨68, 24⟩] ∧
    (24 : Nat) ≠ readU32 B3 64 := by
  refine ⟨by decide, by decide, by decide, by decide⟩

/-- C5 amended: for every accepted buffer, the recorded span of level `i` is
`{offset = (walk offset of level i) + 4 (mod 2^32), length = computed level
byte size (6× face size for cube textures, else the face size) mod 2^32}`,
and the walk offset advances by 4 plus that computed size per level (the
recorded length equals the stored size except when a cube level stores the
single-face size). -/
theorem C5_spanLayout (r : DataReader) (hreach : reachesWalk r)
    (hok : isOk (tryCreateInternal r) = true) :
    spansOf (tryCreateInternal r) =
      (List.range (fullRangeOf r).numMipLevels).map fun i =>
        (⟨(walkOffset (propsOf r) (fullRangeOf r) (isCubeOf r) 0 (startOffsetOf r) i + 4) %
            u32Mod,
          levelDataBytes (propsOf r) (fullRangeOf r) (isCubeOf r) i % u32Mod⟩ :
          MipLevelData) := by
  rcases tryCreate_cases r hreach with ⟨ht, _⟩ | ⟨_, ht⟩
  · rw [ht] at hok
    exact absurd hok (by simp [isOk])
  · rw [ht]
    rfl

/-- C5 witness: the span layout evaluated on the cube buffer `B3`. -/
theorem C5_witness_spanLayoutOnCube :
    spansOf (tryCreateInternal B3) =
      (List.range (fullRangeOf B3).numMipLevels).map fun i =>
        (⟨(walkOffset (propsOf B3) (fullRangeOf B3) (isCubeOf B3) 0 (startOffsetOf B3) i + 4) %
            u32Mod,
          levelDataBytes (propsOf B3) (fullRangeOf B3) (isCubeOf B3) i % u32Mod⟩ :
          MipLevelData) :=
  C5_spanLayout B3 (by decide) (by decide)

/-- C6: recognition equals the spec's ordered check list with first-failure
semantics (null → length → tag → endianness → format → cube-array →
3D-array), returning success only when every check passes; in particular a
non-null buffer shorter than the fixed header size fails with
`ArgumentOutOfRange`. -/
theorem C6_recognitionCheckOrder (r : DataReader) :
    canCreateInternal r = canCreateSpec r ∧
    (r.nonNull = true → r.length < kHeaderLength →
      canCreateInternal r =
        Except.error ⟨Code.ArgumentOutOfRange, "Not enough data for header."⟩) := by
  constructor
  · unfold canCreateSpec specChecks canCreateInternal canCreateChecks
    by_cases h1 : r.nonNull = false <;>
      by_cases h2 : r.length < kHeaderLength <;>
        by_cases h3 : tagIsValid (parseHeader r) = true <;>
          by_cases h4 : (parseHeader r).endianness = 0x04030201 <;>
            by_cases h5 : (formatProperties (parseHeader r)).format = TextureFormat.Invalid <;>
              by_cases h6 : (parseHeader r).numberOfFaces = 6 ∧
                  (parseHeader r).numberOfArrayElements > 1 <;>
                by_cases h7 : (parseHeader r).numberOfArrayElements > 1 ∧
                    (parseHeader r).pixelDepth > 1 <;>
                  simp [firstFailure, h1, h2, h3, h4, h5, h6, h7]
  · intro hn hl
    unfold canCreateInternal
    rw [if_neg (by simp [hn]), if_pos hl]

/-- C6 witness: the 10-byte reader `Rshort` fails with out-of-range. -/
theorem C6_witness_shortBuffer :
    canCreateInternal Rshort =
      Except.error ⟨Code.ArgumentOutOfRange, "Not enough data for header."⟩ :=
  (C6_recognitionCheckOrder Rshort).2 rfl (by decide)

/-- C7: when construction reaches the length checks, it fails with "Length
is too short" whenever the total pixel-data bytes for the full range exceed
the buffer length, and with "Length shorter than expected length" whenever
the buffer length is smaller than fixed header size + key-value bytes +
4 × declared mip-level count + total pixel-data bytes (the comparison being
exact whenever that sum does not overflow 32 bits). -/
theorem C7_lengthValidation (r : DataReader) (hreach : reachesRangeCheck r) :
    (rangeBytesOf r > r.length →
      tryCreateInternal r = Except.error ⟨Code.InvalidOperation, "Length is too short."⟩) ∧
    (rangeBytesOf r ≤ r.length →
      kHeaderLength + (parseHeader r).bytesOfKeyValueData +
          (parseHeader r).numberOfMipmapLevels * 4 + rangeBytesOf r < u32Mod →
      r.length < kHeaderLength + (parseHeader r).bytesOfKeyValueData +
          (parseHeader r).numberOfMipmapLevels * 4 + rangeBytesOf r →
      tryCreateInternal r =
        Except.error ⟨Code.InvalidOperation, "Length shorter than expected length."⟩) := by
  constructor
  · exact tryCreate_lenTooShort r hreach
  · intro hle hnov hlt
    refine tryCreate_lenShorter r hreach hle ?_
    rw [expectedLengthU32_eq_mod, Nat.mod_eq_of_lt hnov]
    exact hlt

/-- C7 witness: the truncated buffer `B7` (71 bytes, expected 72) fails with
"Length shorter than expected length". -/
theorem C7_witness_truncatedBuffer :
    tryCreateInternal B7 =
      Except.error ⟨Code.InvalidOperation, "Length shorter than expected length."⟩ :=
  (C7_lengthValidation B7 (by decide)).2 (by decide) (by decide) (by decide)

/-- C8 counterexample: copying the factory-produced loader of `B1` (one
4-byte span) into a 3-byte destination would overflow, yet the code reports
no out-of-range failure (the result slot stays unset) and simply leaves the
destination unchanged — contradicting the claim that it aborts with an
out-of-range failure. -/
theorem C8_counterexample_noFailureReported :
    tryCreateInternal B1 = Except.ok L1 ∧
    (loadToExternalMemoryInternal B1.data L1 [0, 0, 0]).2 = none ∧
    (loadToExternalMemoryInternal B1.data L1 [0, 0, 0]).1 = [0, 0, 0] ∧
    ¬ ((0 : Nat) + 4 ≤ 3) := by
  refine ⟨by decide, rfl, by decide, by decide⟩

/-- C8 amended: the copy loop copies spans sequentially at increasing
offsets (level 0 first) and bounds-checks each copy against the destination
length before writing, but a copy that would overflow is silently skipped
(destination untouched for that span), no out-of-range failure is ever
reported, and subsequent copies still proceed; when every copy fits, the
result is the plain sequential copy. -/
theorem C8_copyCheckedButUnreported (src : Nat → Nat) (l : TextureLoader) (dst : List Nat) :
    (loadToExternalMemoryInternal src l dst).2 = none ∧
    ((loadToExternalMemoryInternal src l dst).1).length = dst.length ∧
    (∀ offset srcOffset count, dst.length < offset + count →
      checked_memcpy_offset dst offset src srcOffset count = dst) ∧
    (spansFitFrom dst.length l.mipLevelData 0 →
      (loadToExternalMemoryInternal src l dst).1 = copySpansSpec src l.mipLevelData 0 dst) := by
  refine ⟨rfl, copySpans_length src l.mipLevelData 0 dst, ?_, ?_⟩
  · intro offset srcOffset count hlt
    unfold checked_memcpy_offset
    rw [if_neg (by omega)]
  · intro hfit
    exact copySpans_eq_spec src l.mipLevelData 0 dst hfit

/-- C8 witness: the good-path copy evaluated on a two-span loader. -/
theorem C8_witness_goodPathCopy :
    (loadToExternalMemoryInternal W8src W8loader [0, 0, 0, 0]).1 =
      copySpansSpec W8src W8loader.mipLevelData 0 [0, 0, 0, 0] :=
  (C8_copyCheckedButUnreported W8src W8loader [0, 0, 0, 0]).2.2.2 (by decide)

/-- C9: recognition is a deterministic function of the null flag, the
reported length, and the first `headerLength()` bytes only: two readers
agreeing on those produce identical recognition outcomes (boolean and
result code/message). -/
theorem C9_recognitionReadsHeaderOnly (r1 r2 : DataReader)
    (hn : r1.nonNull = r2.nonNull) (hl : r1.length = r2.length)
    (hb : ∀ i < kHeaderLength, r1.data i = r2.data i) :
    canCreateInternal r1 = canCreateInternal r2 := by
  have hby : ∀ i, i < kHeaderLength → byteAt r1 i = byteAt r2 i := by
    intro i hi
    unfold byteAt
    rw [hb i hi]
  have hread : ∀ off, off + 3 < kHeaderLength → readU32 r1 off = readU32 r2 off := by
    intro off hoff
    unfold readU32
    rw [hby off (by omega), hby (off + 1) (by omega), hby (off + 2) (by omega),
      hby (off + 3) (by omega)]
  have hh : parseHeader r1 = parseHeader r2 := by
    unfold parseHeader
    simp only [Header.mk.injEq]
    refine ⟨?_, hread 12 (by decide), hread 16 (by decide), hread 20 (by decide),
      hread 24 (by decide), hread 28 (by decide), hread 32 (by decide), hread 36 (by decide),
      hread 40 (by decide), hread 44 (by decide), hread 48 (by decide), hread 52 (by decide),
      hread 56 (by decide), hread 60 (by decide)⟩
    refine List.map_congr_left fun i hi => hby i ?_
    have h12 : i < 12 := List.mem_range.mp hi
    have hlt : (12 : Nat) < kHeaderLength := by decide
    omega
  unfold canCreateInternal
  rw [hn, hl, hh]

/-- C9 witness: readers `R9a` and `R9b` agree on the first 64 bytes but
differ at byte 64; recognition agrees on them. -/
theorem C9_witness_sameHeaderSameOutcome :
    canCreateInternal R9a = canCreateInternal R9b :=
  C9_recognitionReadsHeaderOnly R9a R9b rfl rfl (by decide)

/-- C10: the expected-length sum is computed in 32-bit modular arithmetic:
when the buffer reaches the expected-length check and the true sum (fixed
header size + key-value bytes + 4 × declared mip count + range bytes) is at
least 2^32, the "Length shorter than expected length" outcome is decided by
comparing the buffer length against the sum reduced modulo 2^32, not the
mathematical sum. -/
theorem C10_expectedLengthIsModular (r : DataReader) (h1 : reachesRangeCheck r)
    (h2 : rangeBytesOf r ≤ r.length)
    (h3 : u32Mod ≤ kHeaderLength + (parseHeader r).bytesOfKeyValueData +
        (parseHeader r).numberOfMipmapLevels * 4 + rangeBytesOf r) :
    tryCreateInternal r =
        Except.error ⟨Code.InvalidOperation, "Length shorter than expected length."⟩ ↔
      r.length < (kHeaderLength + (parseHeader r).bytesOfKeyValueData +
          (parseHeader r).numberOfMipmapLevels * 4 + rangeBytesOf r) % u32Mod := by
  have hmod := expectedLengthU32_eq_mod (parseHeader r) (rangeBytesOf r)
  constructor
  · intro herr
    by_contra hge
    push_neg at hge
    have hwalk : reachesWalk r := ⟨h1, h2, by rw [hmod]; exact hge⟩
    rcases tryCreate_cases r hwalk with ⟨ht, _⟩ | ⟨_, ht⟩
    · rw [ht] at herr
      exact absurd herr (by decide)
    · rw [ht] at herr
      exact absurd herr (by simp)
  · intro hlt
    refine tryCreate_lenShorter r h1 h2 ?_
    rw [hmod]
    exact hlt

/-- C10 witness: buffer `B10` has `bytesOfKeyValueData = 2^32 - 4`, making
the true expected-length sum `2^32 + 68`; the length check passes (the
buffer length `2^32 - 1` is at least `68 = sum mod 2^32`), so construction
does not fail with "Length shorter than expected length" even though the
buffer is shorter than the mathematical sum. -/
theorem C10_witness_overflowingSum :
    ¬ tryCreateInternal B10 =
        Except.error ⟨Code.InvalidOperation, "Length shorter than expected length."⟩ :=
  fun h =>
    absurd ((C10_expectedLengthIsModular B10 (by decide) (by decide) (by decide)).mp h)
      (by decide)

end Ktx1
